import Mathlib

/-!
# Shallow embedding of `src/backtest_models.py`

This file embeds the validation engine of the Kansas City data-center
backtesting script: the time-series cross-validation splitter
(`time_series_cross_validation`, built on sklearn's `TimeSeriesSplit`),
the rolling walk-forward simulator (`walk_forward_validation`), the
per-split min-max scaling + SVR training/prediction cycle, the metric
functions (RMSE, MAE, sklearn's `r2_score`, MAPE, directional accuracy),
and the residual-based confidence-interval computation
(`calculate_confidence_intervals`).

Modelling conventions:
* Python floats are idealised as real numbers `ℝ`; numpy arrays as `List ℝ`.
* The SVR regressor (`sklearn.svm.SVR`, an external library solver) is an
  abstract parameter `svr : SVRModel`: a function from the scaled training
  inputs, the training targets and one scaled query point to a prediction.
  Every property proved here holds for an arbitrary such model.
* `scipy.stats.norm.ppf` (external) is an abstract parameter `norm_ppf`.
* A numpy expression whose float value is non-finite (`inf`/`nan`, e.g. a
  division by zero propagated through `np.mean`) is modelled as `none` of
  an `Option ℝ`; the script suppresses the corresponding warnings
  (`warnings.filterwarnings('ignore')`), so such values flow silently.
-/

namespace Backtest

noncomputable section

/-- `np.mean` of a list (numpy divides by the length; the empty case is not
exercised by any claim). -/
def mean (xs : List ℝ) : ℝ := xs.sum / xs.length

/-- `np.diff`: successive differences `xs[i+1] - xs[i]`. -/
def diffs (xs : List ℝ) : List ℝ := List.zipWith (fun b a => b - a) xs.tail xs

/-- Minimum of a list, as computed by `MinMaxScaler.fit` (`data_min_`). -/
def listMin (xs : List ℝ) : ℝ := xs.foldl min (xs.headD 0)

/-- Maximum of a list, as computed by `MinMaxScaler.fit` (`data_max_`). -/
def listMax (xs : List ℝ) : ℝ := xs.foldl max (xs.headD 0)

/-- `MinMaxScaler().fit`: records the min/max bounds of the training data. -/
def minMaxFit (xs : List ℝ) : ℝ × ℝ := (listMin xs, listMax xs)

/-- `MinMaxScaler.transform` with feature range `(0, 1)`:
`(x - data_min) / data_range`, where sklearn replaces a zero `data_range`
by 1 (`_handle_zeros_in_scale`). -/
def minMaxTransform (b : ℝ × ℝ) (x : ℝ) : ℝ :=
  (x - b.1) / (if b.2 - b.1 = 0 then 1 else b.2 - b.1)

/-- Abstract interface of the fitted SVR regressor
(`SVR(kernel='rbf', C=100, gamma=0.1, epsilon=0.1)` then `.fit`/`.predict`):
given the scaled training inputs, the training targets and one scaled query
input, return the predicted value. The solver itself is external
(sklearn); all theorems below hold for every such function. -/
def SVRModel : Type := List ℝ → List ℝ → ℝ → ℝ

/-- One scale-fit-train-predict cycle, as performed inside each fold/step of
the source (lines 48-58 and 126-135): fit a fresh `MinMaxScaler` on the
training inputs only, transform the training and test inputs with the
fitted bounds, fit a fresh SVR on the scaled training data, and predict
each scaled test input. -/
def fitPredict (svr : SVRModel) (trainX trainY testX : List ℝ) : List ℝ :=
  let b := minMaxFit trainX
  testX.map (fun x => svr (trainX.map (minMaxTransform b)) trainY (minMaxTransform b x))

/-! ## Metrics -/

/-- `np.sqrt(mean_squared_error(yTrue, yPred))`. -/
def rmse (yTrue yPred : List ℝ) : ℝ :=
  Real.sqrt (mean (List.zipWith (fun t p => (t - p) ^ 2) yTrue yPred))

/-- `mean_absolute_error(yTrue, yPred)`. -/
def mae (yTrue yPred : List ℝ) : ℝ :=
  mean (List.zipWith (fun t p => |t - p|) yTrue yPred)

/-- sklearn's `r2_score`: `1 - SS_res / SS_tot`, with sklearn's degenerate
policy: when `SS_tot = 0` the score is `1.0` if `SS_res = 0` and `0.0`
otherwise (no NaN, no sentinel: a silent finite number). -/
def r2_score (yTrue yPred : List ℝ) : ℝ :=
  let num := (List.zipWith (fun t p => (t - p) ^ 2) yTrue yPred).sum
  let den := (yTrue.map (fun t => (t - mean yTrue) ^ 2)).sum
  if den = 0 then (if num = 0 then 1 else 0) else 1 - num / den

/-- `np.mean(np.abs((yTrue - yPred) / yTrue)) * 100` (source lines 64 and
147). The source divides with no guard; when some `yTrue` element is `0`
the float division yields `inf`/`nan`, which `np.abs` and `np.mean`
propagate to a non-finite result (warnings are suppressed). A non-finite
result is modelled as `none`; otherwise the real-arithmetic value is
returned. Callers pass equal-length series. -/
def mape (yTrue yPred : List ℝ) : Option ℝ :=
  if (0 : ℝ) ∈ yTrue then none
  else some (mean (List.zipWith (fun t p => |(t - p) / t|) yTrue yPred) * 100)

/-- Modelled from the spec: the excluding-policy MAPE that the spec offers
as one acceptable guard ("either by excluding that point with a documented
policy or raising a typed error"): points whose actual value is zero are
dropped before averaging. The source has no such guard; this definition
exists only to contrast the spec's policy with the source's unguarded
`mape`. -/
def mapeExcludingZeros (yTrue yPred : List ℝ) : ℝ :=
  mean (((List.zipWith (fun t p => (t, p)) yTrue yPred).filter
    (fun tp => tp.1 ≠ 0)).map (fun tp => |(tp.1 - tp.2) / tp.1|)) * 100

/-- `np.mean((np.diff(actuals) > 0) == (np.diff(predictions) > 0)) * 100`
(source lines 156-158): the percentage of first-difference steps on which
the two series move in the same direction, where a step counts as agreeing
exactly when the two boolean tests `Δ > 0` coincide. -/
def directional_accuracy (actuals predictions : List ℝ) : ℝ :=
  mean (List.zipWith (fun a p => if (decide (a > 0)) = (decide (p > 0)) then (1 : ℝ) else 0)
    (diffs actuals) (diffs predictions)) * 100

/-! ## Split strategies -/

/-- The splits generated by `TimeSeriesSplit(n_splits).split(X)` on `n`
samples, as the source consumes them (source line 39/43). Embedded from
sklearn: with `test_size = n / (n_splits + 1)` (integer division), fold `k`
(for `k < n_splits`) has test indices
`[n - n_splits * test_size + k * test_size, ... + test_size)` and train
indices all indices strictly before the test block. sklearn raises a
`ValueError` when `n_splits ≤ 1` (checked at construction) or when
`n < n_splits + 1` (more folds than samples); both are modelled as
`Except.error`. -/
def tscvSplits (n nSplits : ℕ) : Except String (List (List ℕ × List ℕ)) :=
  if nSplits ≤ 1 then
    Except.error "k-fold cross-validation requires at least 2 splits"
  else if n < nSplits + 1 then
    Except.error "Cannot have number of folds greater than the number of samples"
  else
    let testSize := n / (nSplits + 1)
    Except.ok ((List.range nSplits).map (fun k =>
      let testStart := n - nSplits * testSize + k * testSize
      (List.range testStart, List.range' testStart testSize)))

/-- The index structure of the walk-forward loop (source line 117): for each
`i` from `window_size` to `n - 1`, the training indices are
`[i - window_size, i)` and the single test index is `i`. With
`i = window_size + k` the training indices are `[k, k + window_size)`. -/
def walkForwardSplits (n w : ℕ) : List (List ℕ × ℕ) :=
  (List.range (n - w)).map (fun k => (List.range' k w, w + k))

/-! ## Validation runners -/

/-- `walk_forward_validation(demand_data, prices, window_size)` (source
lines 102-139), up to the point where the prediction records are collected:
for each `i` in `range(window_size, len(demand_data))`, train on the slices
`demand_data[i-w:i]`, `prices[i-w:i]` (a fresh scaler fitted on the
training inputs only and a fresh SVR), predict the single test input
`demand_data[i]`, and record `(i, predicted, actual)` with
`actual = prices[i]`. -/
def walk_forward_validation (svr : SVRModel) (demand_data prices : List ℝ) (window_size : ℕ) :
    List (ℕ × ℝ × ℝ) :=
  (List.range (demand_data.length - window_size)).map (fun k =>
    let i := window_size + k
    (i,
     (fitPredict svr ((demand_data.drop (i - window_size)).take window_size)
        ((prices.drop (i - window_size)).take window_size)
        [demand_data.getD i 0]).headD 0,
     prices.getD i 0))

/-- The per-fold prediction step of `time_series_cross_validation` (source
lines 44-58): gather the training and test data at the fold's index lists
and run one fresh scale-fit-train-predict cycle. -/
def cvFoldPredictions (svr : SVRModel) (X y : List ℝ) (trainIdx testIdx : List ℕ) : List ℝ :=
  fitPredict svr (trainIdx.map (fun j => X.getD j 0)) (trainIdx.map (fun j => y.getD j 0))
    (testIdx.map (fun j => X.getD j 0))

/-- One row of the `fold_results` table (source lines 66-74). -/
structure FoldResult where
  fold : ℕ
  train_size : ℕ
  test_size : ℕ
  rmse : ℝ
  mae : ℝ
  r2 : ℝ
  mape : Option ℝ

/-- `time_series_cross_validation(X, y, n_splits)` (source lines 29-95):
iterate the `TimeSeriesSplit` folds; on each fold fit a fresh scaler and a
fresh SVR on the training block only, predict the test block, and record
the fold's sizes and metrics. -/
def time_series_cross_validation (svr : SVRModel) (X y : List ℝ) (n_splits : ℕ) :
    Except String (List FoldResult) :=
  (tscvSplits X.length n_splits).map (fun splits =>
    splits.enum.map (fun fe =>
      let trainIdx := fe.2.1
      let testIdx := fe.2.2
      let y_pred := cvFoldPredictions svr X y trainIdx testIdx
      let y_test := testIdx.map (fun j => y.getD j 0)
      { fold := fe.1 + 1
        train_size := trainIdx.length
        test_size := testIdx.length
        rmse := rmse y_test y_pred
        mae := mae y_test y_pred
        r2 := r2_score y_test y_pred
        mape := mape y_test y_pred }))

/-! ## Confidence intervals -/

/-- `np.std` with its default `ddof = 0`: the population standard deviation,
`sqrt(mean((x - mean x)^2))` (divisor `n`). -/
def np_std (xs : List ℝ) : ℝ :=
  Real.sqrt (mean (xs.map (fun x => (x - mean xs) ^ 2)))

/-- Modelled from the spec: the Bessel-corrected sample standard deviation
(divisor `n - 1`) that the spec's sentence "Standard error = sample
standard deviation of residuals" prescribes; the source has no such
function (it calls `np.std`, divisor `n`). Used only to compare the
source's estimator against the spec's. -/
def sample_std (xs : List ℝ) : ℝ :=
  Real.sqrt ((xs.map (fun x => (x - mean xs) ^ 2)).sum / ((xs.length : ℝ) - 1))

/-- The hard-coded 2035 wholesale point forecast used inside
`calculate_confidence_intervals` (source line 463): `base_prediction_2035
= 100.98` dollars per MWh. It is a local constant of the function body,
not a parameter. -/
def base_prediction_2035 : ℝ := 100.98

/-- Wholesale-to-retail conversion multiplier (source line 472). -/
def retail_multiplier : ℝ := 3.5

/-- Additive retail base cost in dollars per kWh (source line 473). -/
def retail_base_cost : ℝ := 0.05

/-- The values computed and returned by `calculate_confidence_intervals`
(source lines 496-502 return `se`, `margin` and the three retail values;
`lower_bound`/`upper_bound` are the wholesale bounds computed at lines
464-465 from which the retail values are derived). -/
structure CIResult where
  se : ℝ
  margin : ℝ
  lower_bound : ℝ
  upper_bound : ℝ
  retail_point : ℝ
  retail_lower : ℝ
  retail_upper : ℝ

/-- `calculate_confidence_intervals(predictions, actuals, confidence)`
(source lines 438-502): residuals are `actuals - predictions`; the
standard error is `np.std(residuals)`; the z-score is
`scipy.stats.norm.ppf((1 + confidence) / 2)` (scipy is external, so the
quantile function is the abstract parameter `norm_ppf`); the margin is
`z * se`; the wholesale interval is `base_prediction_2035 ± margin`; and
the retail values apply `v / 1000 * retail_multiplier + retail_base_cost`
to the point and to both bounds. -/
def calculate_confidence_intervals (norm_ppf : ℝ → ℝ)
    (predictions actuals : List ℝ) (confidence : ℝ) : CIResult :=
  let residuals := List.zipWith (fun a p => a - p) actuals predictions
  let se := np_std residuals
  let z_score := norm_ppf ((1 + confidence) / 2)
  let margin := z_score * se
  let lower_bound := base_prediction_2035 - margin
  let upper_bound := base_prediction_2035 + margin
  { se := se
    margin := margin
    lower_bound := lower_bound
    upper_bound := upper_bound
    retail_point := base_prediction_2035 / 1000 * retail_multiplier + retail_base_cost
    retail_lower := lower_bound / 1000 * retail_multiplier + retail_base_cost
    retail_upper := upper_bound / 1000 * retail_multiplier + retail_base_cost }

end

/-! ## Helper lemmas -/

theorem getD_map_range {α : Type} (f : ℕ → α) {m k : ℕ} (d : α) (h : k < m) :
    ((List.range m).map f).getD k d = f k := by
  rw [List.getD_eq_getElem _ _ (by simpa using h)]
  simp

theorem slice_eq_map_getD (xs : List ℝ) (k w : ℕ) (h : k + w ≤ xs.length) :
    (xs.drop k).take w = (List.range' k w).map (fun j => xs.getD j 0) := by
  apply List.ext_getElem
  · simp; omega
  · intro i h1 h2
    have hi : i < w := by simpa using h2
    have hkw : k + i < xs.length := by omega
    rw [List.getElem_take, List.getElem_drop, List.getElem_map, List.getElem_range']
    rw [List.getD_eq_getElem _ _ (by simpa using hkw)]
    simp

theorem getD_eq_of_take_eq (xs ys : List ℝ) (m j : ℕ) (h : xs.take m = ys.take m)
    (hj : j < m) : xs.getD j 0 = ys.getD j 0 := by
  have hlen : xs.length = ys.length ∨ (m ≤ xs.length ∧ m ≤ ys.length) := by
    rcases le_or_lt m xs.length with h1 | h1
    · rcases le_or_lt m ys.length with h2 | h2
      · exact Or.inr ⟨h1, h2⟩
      · left
        have := congrArg List.length h
        simp [List.length_take] at this
        omega
    · left
      have := congrArg List.length h
      simp [List.length_take] at this
      omega
  rcases le_or_lt xs.length j with hx | hx
  · have hy : ys.length ≤ j := by
      have := congrArg List.length h
      simp [List.length_take] at this
      omega
    rw [List.getD_eq_default _ _ hx, List.getD_eq_default _ _ hy]
  · have hy : j < ys.length := by
      have := congrArg List.length h
      simp [List.length_take] at this
      omega
    rw [List.getD_eq_getElem _ _ hx, List.getD_eq_getElem _ _ hy]
    have hx' : j < (xs.take m).length := by simp [List.length_take]; omega
    have := List.getElem_of_eq h hx'
    rw [List.getElem_take] at this
    rw [this, List.getElem_take]

theorem getD_drop (xs : List ℝ) (k i : ℕ) : (xs.drop k).getD i 0 = xs.getD (k + i) 0 := by
  rcases lt_or_le (k + i) xs.length with h | h
  · rw [List.getD_eq_getElem _ _ (by simp; omega), List.getD_eq_getElem _ _ h]
    exact List.getElem_drop xs
  · rw [List.getD_eq_default _ _ (by simp; omega), List.getD_eq_default _ _ h]

theorem decide_gt_eq_iff (a p : ℝ) :
    ((decide (a > 0)) = (decide (p > 0))) ↔ ((0 < a ∧ 0 < p) ∨ (a ≤ 0 ∧ p ≤ 0)) := by
  rw [decide_eq_decide]
  constructor
  · intro h
    rcases le_or_lt a 0 with ha | ha
    · exact Or.inr ⟨ha, not_lt.1 (fun hp => (not_lt.mpr ha) (h.mpr hp))⟩
    · exact Or.inl ⟨ha, h.mp ha⟩
  · intro h
    rcases h with ⟨h1, h2⟩ | ⟨h1, h2⟩
    · exact iff_of_true h1 h2
    · exact iff_of_false (not_lt.mpr h1) (not_lt.mpr h2)

theorem sum_indicator_eq_countP {α : Type} (l : List α) (P : α → Prop) [DecidablePred P] :
    (l.map (fun x => if P x then (1 : ℝ) else 0)).sum = l.countP (fun x => decide (P x)) := by
  induction l with
  | nil => simp
  | cons a t ih => by_cases h : P a <;> simp [h, ih, List.countP_cons] <;> ring

theorem zipWith_eq_map_zip {α β γ : Type} (f : α → β → γ) (u : List α) (v : List β) :
    List.zipWith f u v = (u.zip v).map (fun x => f x.1 x.2) := by
  induction u generalizing v with
  | nil => simp
  | cons a t ih => cases v <;> simp [ih]

theorem diffs_length (xs : List ℝ) : (diffs xs).length = xs.length - 1 := by
  simp [diffs]

theorem indicator_zipWith_self (l : List ℝ) :
    List.zipWith (fun a p => if (decide (a > 0)) = (decide (p > 0)) then (1 : ℝ) else 0) l l =
      List.replicate l.length 1 := by
  induction l with
  | nil => simp
  | cons a t ih => simp [List.replicate_succ, ih]

theorem mean_replicate_one (n : ℕ) (h : n ≠ 0) : mean (List.replicate n (1 : ℝ)) = 1 := by
  have hn : (n : ℝ) ≠ 0 := Nat.cast_ne_zero.mpr h
  simp [mean, List.sum_replicate, nsmul_eq_mul, hn]

theorem np_std_eq_sample_std (xs : List ℝ) (h : 2 ≤ xs.length) :
    np_std xs = Real.sqrt (((xs.length : ℝ) - 1) / xs.length) * sample_std xs := by
  have hn : (2 : ℝ) ≤ xs.length := by exact_mod_cast h
  have h0 : (0 : ℝ) < (xs.length : ℝ) := by linarith
  have h1 : (0 : ℝ) < (xs.length : ℝ) - 1 := by linarith
  simp only [np_std, sample_std, mean]
  rw [← Real.sqrt_mul (by apply div_nonneg <;> linarith)]
  congr 1
  field_simp
  ring

/-! ## Claims -/

/-- C1: for every pair of equal-length series `demand`, `prices` of length
`N` and every `windowSize` with `0 < windowSize < N`,
`walk_forward_validation` produces exactly `N - windowSize` prediction
records; the walk-forward split for each step trains on exactly the
indices `[i - windowSize, i)` where `i` is the test index (so every
training window has length `windowSize`), tests on the single index `i`
with `windowSize ≤ i ≤ N - 1`, and every training index is strictly below
the test index (no look-ahead); and the `k`-th prediction record is
produced by a model trained on precisely the data at the `k`-th split's
training indices and tested at its test index `windowSize + k`. -/
theorem walkForward_produces_splits (svr : SVRModel) (demand prices : List ℝ)
    (w : ℕ) (hlen : demand.length = prices.length) (hw : 0 < w)
    (hn : w < demand.length) :
    (walk_forward_validation svr demand prices w).length = demand.length - w ∧
    (walkForwardSplits demand.length w).length = demand.length - w ∧
    (∀ s ∈ walkForwardSplits demand.length w,
      s.1.length = w ∧ s.1 = List.range' (s.2 - w) w ∧ (∀ j ∈ s.1, j < s.2) ∧
      w ≤ s.2 ∧ s.2 < demand.length) ∧
    (∀ k, k < demand.length - w →
      (walk_forward_validation svr demand prices w).getD k (0, 0, 0) =
        (w + k,
         (fitPredict svr
            (((walkForwardSplits demand.length w).getD k ([], 0)).1.map
              (fun j => demand.getD j 0))
            (((walkForwardSplits demand.length w).getD k ([], 0)).1.map
              (fun j => prices.getD j 0))
            [demand.getD (w + k) 0]).headD 0,
         prices.getD (w + k) 0)) := by
  refine ⟨by simp [walk_forward_validation], by simp [walkForwardSplits], ?_, ?_⟩
  · intro s hs
    rw [walkForwardSplits, List.mem_map] at hs
    obtain ⟨k, hk, rfl⟩ := hs
    rw [List.mem_range] at hk
    refine ⟨by simp, by simp, ?_, by omega, by omega⟩
    intro j hj
    rw [List.mem_range'] at hj
    omega
  · intro k hk
    rw [walk_forward_validation, getD_map_range _ _ hk,
      walkForwardSplits, getD_map_range _ _ hk]
    have h2 : k + w ≤ demand.length := by omega
    have h3 : k + w ≤ prices.length := by omega
    simp only [Nat.add_sub_cancel_left, slice_eq_map_getD demand k w h2,
      slice_eq_map_getD prices k w h3]

/-- Witness for C1 at a concrete input. -/
theorem walkForward_produces_splits_witness :
    0 < 1 ∧ 1 < [(1 : ℝ), 2, 3].length ∧
    (walk_forward_validation (fun _ _ _ => (0 : ℝ)) [1, 2, 3] [4, 5, 6] 1).length =
      [(1 : ℝ), 2, 3].length - 1 :=
  ⟨Nat.one_pos, by simp,
   (walkForward_produces_splits (fun _ _ _ => 0) [1, 2, 3] [4, 5, 6] 1
     (by simp) Nat.one_pos (by simp)).1⟩

/-- C2: in both validation runs the min-max normalizer of a split is fit
exclusively on that split's training inputs and the test inputs are only
transformed with the bounds fitted from training data, and a fresh
normalizer and model are built per split and never shared. Formally:
(1) every scale-fit-train-predict cycle transforms its test inputs with
exactly the bounds `minMaxFit trainX` fitted on the training inputs alone
(never refit on test data); (2) a walk-forward prediction record depends
only on the data inside its own window `[k, k + w]` — two input pairs
agreeing there yield the same record, so nothing fitted on another split
(or on test data elsewhere) can leak in; (3) a cross-validation fold's
predictions depend only on the data at that fold's own train/test indices. -/
theorem per_split_scaler_freshness :
    (∀ (svr : SVRModel) (trainX trainY testX : List ℝ),
      fitPredict svr trainX trainY testX =
        testX.map (fun x =>
          svr (trainX.map (minMaxTransform (minMaxFit trainX))) trainY
            (minMaxTransform (minMaxFit trainX) x))) ∧
    (∀ (svr : SVRModel) (d d' p p' : List ℝ) (w k : ℕ),
      k + w < d.length → k + w < d'.length →
      (d.drop k).take (w + 1) = (d'.drop k).take (w + 1) →
      (p.drop k).take (w + 1) = (p'.drop k).take (w + 1) →
      (walk_forward_validation svr d p w).getD k (0, 0, 0) =
        (walk_forward_validation svr d' p' w).getD k (0, 0, 0)) ∧
    (∀ (svr : SVRModel) (X X' y y' : List ℝ) (trainIdx testIdx : List ℕ) (m : ℕ),
      (∀ j ∈ trainIdx, j < m) → (∀ j ∈ testIdx, j < m) →
      X.take m = X'.take m → y.take m = y'.take m →
      cvFoldPredictions svr X y trainIdx testIdx =
        cvFoldPredictions svr X' y' trainIdx testIdx) := by
  refine ⟨fun svr trainX trainY testX => rfl, ?_, ?_⟩
  · intro svr d d' p p' w k h1 h2 hd hp
    have hk : k < d.length - w := by omega
    have hk' : k < d'.length - w := by omega
    rw [walk_forward_validation, getD_map_range _ _ hk,
      walk_forward_validation, getD_map_range _ _ hk']
    have e1 : (d.drop k).take w = (d'.drop k).take w := by
      have h := congrArg (List.take w) hd
      rwa [List.take_take, List.take_take, min_eq_left (by omega)] at h
    have e2 : (p.drop k).take w = (p'.drop k).take w := by
      have h := congrArg (List.take w) hp
      rwa [List.take_take, List.take_take, min_eq_left (by omega)] at h
    have e3 : d.getD (w + k) 0 = d'.getD (w + k) 0 := by
      rw [Nat.add_comm w k, ← getD_drop d k w, ← getD_drop d' k w]
      exact getD_eq_of_take_eq _ _ (w + 1) w hd (by omega)
    have e4 : p.getD (w + k) 0 = p'.getD (w + k) 0 := by
      rw [Nat.add_comm w k, ← getD_drop p k w, ← getD_drop p' k w]
      exact getD_eq_of_take_eq _ _ (w + 1) w hp (by omega)
    simp only [Nat.add_sub_cancel_left, e1, e2, e3, e4]
  · intro svr X X' y y' trainIdx testIdx m htr hte hX hy
    have m1 : trainIdx.map (fun j => X.getD j 0) = trainIdx.map (fun j => X'.getD j 0) :=
      List.map_congr_left (fun j hj => getD_eq_of_take_eq X X' m j hX (htr j hj))
    have m2 : trainIdx.map (fun j => y.getD j 0) = trainIdx.map (fun j => y'.getD j 0) :=
      List.map_congr_left (fun j hj => getD_eq_of_take_eq y y' m j hy (htr j hj))
    have m3 : testIdx.map (fun j => X.getD j 0) = testIdx.map (fun j => X'.getD j 0) :=
      List.map_congr_left (fun j hj => getD_eq_of_take_eq X X' m j hX (hte j hj))
    rw [cvFoldPredictions, cvFoldPredictions, m1, m2, m3]

/-- Witness for C2 at concrete inputs: two datasets that agree on a fold's
own train/test indices give identical fold predictions even though they
differ elsewhere. -/
theorem per_split_scaler_freshness_witness :
    cvFoldPredictions (fun _ _ _ => (0 : ℝ)) [1, 2, 3] [4, 5, 6] [0] [1] =
      cvFoldPredictions (fun _ _ _ => (0 : ℝ)) [1, 2, 99] [4, 5, 88] [0] [1] :=
  per_split_scaler_freshness.2.2 (fun _ _ _ => (0 : ℝ)) [1, 2, 3] [1, 2, 99]
    [4, 5, 6] [4, 5, 88] [0] [1] 2 (by decide) (by decide) rfl rfl

/-- C3 (code bug): the MAPE computation is NOT guarded against zero actual
values. At `yTrue = [0, 1]`, `yPred = [1, 1]` the source divides by the
zero actual and the non-finite float result propagates silently through
`np.mean` (modelled `none`, with warnings suppressed by the script); no
typed error is raised and the zero point is not excluded — the spec's
excluding policy would instead give `0` here. -/
theorem mape_zero_actual_unguarded :
    mape [0, 1] [1, 1] = none ∧ mapeExcludingZeros [0, 1] [1, 1] = 0 := by
  constructor
  · simp [mape]
  · norm_num [mapeExcludingZeros, mean, List.filter]

/-- C4 (code bug): for a constant actuals series (`SS_tot = 0`) the R²
computed by the validation runs is NOT reported as an explicit
undefined/sentinel special case: sklearn's `r2_score` silently returns the
ordinary finite number `0` when the predictions are imperfect (and `1`
when they are perfect), indistinguishable from a legitimately computed
score. -/
theorem r2_constant_actuals_silent_finite :
    r2_score [5, 5, 5] [4, 5, 6] = 0 ∧ r2_score [5, 5, 5] [5, 5, 5] = 1 := by
  constructor
  · norm_num [r2_score, mean]
  · norm_num [r2_score, mean]

/-- C5 counterexample: cross-validation with `nSplits = 5` on a 6-point
series does NOT fail with `InsufficientDataError`; sklearn's
`TimeSeriesSplit` succeeds and produces 5 folds (train sizes 1..5, test
size 1). -/
theorem tscv_six_points_five_splits_succeeds :
    tscvSplits 6 5 = Except.ok
      [([0], [1]), ([0, 1], [2]), ([0, 1, 2], [3]),
       ([0, 1, 2, 3], [4]), ([0, 1, 2, 3, 4], [5])] := by
  rfl

/-- C5 amended: the splitter fails only when `N < nSplits + 1` (or
`nSplits ≤ 1`); whenever `2 ≤ nSplits ≤ N - 1` it succeeds with exactly
`nSplits` folds — in particular `nSplits = 5` on a 6-point series
succeeds. Walk-forward with `windowSize ≥ N` raises no typed error up
front: the loop simply produces zero prediction records (the subsequent
metric computation on the empty arrays is what fails, inside sklearn). -/
theorem split_insufficiency_behavior :
    (∀ n s : ℕ, 2 ≤ s → s + 1 ≤ n →
      ∃ fs, tscvSplits n s = Except.ok fs ∧ fs.length = s) ∧
    (∀ n s : ℕ, n < s + 1 → (tscvSplits n s).isOk = false) ∧
    (∀ (svr : SVRModel) (d p : List ℝ) (w : ℕ), d.length ≤ w →
      walk_forward_validation svr d p w = []) := by
  refine ⟨?_, ?_, ?_⟩
  · intro n s h2 hn
    rw [tscvSplits, if_neg (by omega), if_neg (by omega)]
    exact ⟨_, rfl, by simp⟩
  · intro n s h
    rw [tscvSplits]
    rcases le_or_lt s 1 with hs | hs
    · rw [if_pos hs]; rfl
    · rw [if_neg (by omega), if_pos (by omega)]; rfl
  · intro svr d p w h
    rw [walk_forward_validation]
    have h0 : d.length - w = 0 := by omega
    rw [h0]
    rfl

/-- Witness for the amended C5 at concrete inputs. -/
theorem split_insufficiency_behavior_witness :
    (∃ fs, tscvSplits 12 2 = Except.ok fs ∧ fs.length = 2) ∧
    (tscvSplits 3 5).isOk = false ∧
    walk_forward_validation (fun _ _ _ => (0 : ℝ)) [1, 2] [3, 4] 5 = [] :=
  ⟨split_insufficiency_behavior.1 12 2 (by decide) (by decide),
   split_insufficiency_behavior.2.1 3 5 (by decide),
   split_insufficiency_behavior.2.2 (fun _ _ _ => (0 : ℝ)) [1, 2] [3, 4] 5 (by decide)⟩

/-- C6: for every residual set and every confidence level in `(0, 1)`, the
confidence interval is exactly symmetric around the point estimate:
`upperBound - pointEstimate = pointEstimate - lowerBound = margin`, and
`margin = z(confidence) * standardError` where the z-score is the
two-sided standard-normal quantile `norm_ppf((1 + confidence) / 2)` (the
quantile function itself is scipy's, modelled as the abstract parameter
`norm_ppf`). -/
theorem confidence_interval_symmetry (norm_ppf : ℝ → ℝ)
    (predictions actuals : List ℝ) (confidence : ℝ)
    (h0 : 0 < confidence) (h1 : confidence < 1) :
    (calculate_confidence_intervals norm_ppf predictions actuals confidence).upper_bound -
        base_prediction_2035 =
      (calculate_confidence_intervals norm_ppf predictions actuals confidence).margin ∧
    base_prediction_2035 -
        (calculate_confidence_intervals norm_ppf predictions actuals confidence).lower_bound =
      (calculate_confidence_intervals norm_ppf predictions actuals confidence).margin ∧
    (calculate_confidence_intervals norm_ppf predictions actuals confidence).margin =
      norm_ppf ((1 + confidence) / 2) *
        (calculate_confidence_intervals norm_ppf predictions actuals confidence).se := by
  refine ⟨?_, ?_, rfl⟩
  · simp [calculate_confidence_intervals]
  · simp [calculate_confidence_intervals]

/-- Witness for C6 at a concrete input. -/
theorem confidence_interval_symmetry_witness :
    (0 : ℝ) < 0.95 ∧ (0.95 : ℝ) < 1 ∧
    (calculate_confidence_intervals (fun _ => 1.96) [0, 0] [0, 2] 0.95).upper_bound -
        base_prediction_2035 =
      (calculate_confidence_intervals (fun _ => 1.96) [0, 0] [0, 2] 0.95).margin :=
  ⟨by norm_num, by norm_num,
   (confidence_interval_symmetry (fun _ => 1.96) [0, 0] [0, 2] 0.95
     (by norm_num) (by norm_num)).1⟩

/-- C7 counterexample: the standard error is NOT the Bessel-corrected
sample standard deviation. With `predictions = [0, 0]`,
`actuals = [0, 2]` the residuals are `[0, 2]`: the source's
`np.std` (population, divisor `n`) gives `1`, while the sample standard
deviation (divisor `n - 1`) is `√2 ≠ 1`. -/
theorem se_population_not_sample :
    (calculate_confidence_intervals (fun _ => (1.96 : ℝ)) [0, 0] [0, 2] 0.95).se = 1 ∧
    sample_std (List.zipWith (fun a p => a - p) [(0 : ℝ), 2] [0, 0]) = Real.sqrt 2 ∧
    Real.sqrt 2 ≠ 1 := by
  refine ⟨?_, ?_, ?_⟩
  · have h : (calculate_confidence_intervals (fun _ => (1.96 : ℝ)) [0, 0] [0, 2] 0.95).se
        = Real.sqrt 1 := by
      norm_num [calculate_confidence_intervals, np_std, mean]
    rw [h, Real.sqrt_one]
  · norm_num [sample_std, mean]
  · intro h
    have h2 := Real.sq_sqrt (by norm_num : (0 : ℝ) ≤ 2)
    rw [h] at h2
    norm_num at h2

/-- C7 amended: the standard error used by the confidence-interval
computation equals the POPULATION standard deviation of the residuals
`actuals - predictions` (numpy's `np.std` default, divisor `n`), which for
`n ≥ 2` residuals equals `√((n-1)/n)` times the Bessel-corrected sample
standard deviation (so it is strictly smaller whenever the residuals are
not all equal). -/
theorem se_is_population_std (norm_ppf : ℝ → ℝ) (predictions actuals : List ℝ)
    (confidence : ℝ)
    (h : 2 ≤ (List.zipWith (fun a p => a - p) actuals predictions).length) :
    (calculate_confidence_intervals norm_ppf predictions actuals confidence).se =
      np_std (List.zipWith (fun a p => a - p) actuals predictions) ∧
    (calculate_confidence_intervals norm_ppf predictions actuals confidence).se =
      Real.sqrt ((((List.zipWith (fun a p => a - p) actuals predictions).length : ℝ) - 1) /
          ((List.zipWith (fun a p => a - p) actuals predictions).length : ℝ)) *
        sample_std (List.zipWith (fun a p => a - p) actuals predictions) :=
  ⟨rfl, np_std_eq_sample_std _ h⟩

/-- Witness for the amended C7 at a concrete input. -/
theorem se_is_population_std_witness :
    2 ≤ (List.zipWith (fun a p => a - p) [(0 : ℝ), 2] [0, 0]).length ∧
    (calculate_confidence_intervals (fun _ => (1.96 : ℝ)) [0, 0] [0, 2] 0.95).se =
      np_std (List.zipWith (fun a p => a - p) [(0 : ℝ), 2] [0, 0]) :=
  ⟨by simp, (se_is_population_std (fun _ => (1.96 : ℝ)) [0, 0] [0, 2] 0.95 (by simp)).1⟩

/-- C8 counterexample: the point estimate is NOT supplied by the caller:
`calculate_confidence_intervals` takes only `(predictions, actuals,
confidence)` and centers its interval on the hard-coded internal constant
`base_prediction_2035 = 100.98`. Two entirely different inputs yield the
same returned retail point estimate, and the wholesale interval midpoint
is the internal constant. -/
theorem point_estimate_fixed_internally :
    (calculate_confidence_intervals (fun _ => (1.96 : ℝ)) [0, 0] [0, 2] 0.95).retail_point =
      100.98 / 1000 * 3.5 + 0.05 ∧
    (calculate_confidence_intervals (fun _ => (2 : ℝ)) [5, 5, 5] [1, 2, 3] 0.5).retail_point =
      100.98 / 1000 * 3.5 + 0.05 ∧
    ((calculate_confidence_intervals (fun _ => (1.96 : ℝ)) [0, 0] [0, 2] 0.95).lower_bound +
        (calculate_confidence_intervals (fun _ => (1.96 : ℝ)) [0, 0] [0, 2] 0.95).upper_bound) /
      2 = 100.98 := by
  refine ⟨?_, ?_, ?_⟩
  · norm_num [calculate_confidence_intervals, base_prediction_2035,
      retail_multiplier, retail_base_cost]
  · norm_num [calculate_confidence_intervals, base_prediction_2035,
      retail_multiplier, retail_base_cost]
  · simp only [calculate_confidence_intervals, base_prediction_2035]
    ring

/-- C8 amended: the confidence-interval component builds its interval
`[pointEstimate - margin, pointEstimate + margin]` around the FIXED
internal 2035 wholesale forecast `base_prediction_2035 = 100.98` $/MWh
(a hard-coded local constant, not a caller-supplied argument); for every
input the returned interval is centered at that constant. -/
theorem interval_centered_on_internal_constant (norm_ppf : ℝ → ℝ)
    (predictions actuals : List ℝ) (confidence : ℝ) :
    (calculate_confidence_intervals norm_ppf predictions actuals confidence).lower_bound =
      base_prediction_2035 -
        (calculate_confidence_intervals norm_ppf predictions actuals confidence).margin ∧
    (calculate_confidence_intervals norm_ppf predictions actuals confidence).upper_bound =
      base_prediction_2035 +
        (calculate_confidence_intervals norm_ppf predictions actuals confidence).margin ∧
    (calculate_confidence_intervals norm_ppf predictions actuals confidence).retail_point =
      base_prediction_2035 / 1000 * retail_multiplier + retail_base_cost ∧
    ((calculate_confidence_intervals norm_ppf predictions actuals confidence).lower_bound +
        (calculate_confidence_intervals norm_ppf predictions actuals confidence).upper_bound) /
      2 = base_prediction_2035 := by
  refine ⟨rfl, rfl, rfl, ?_⟩
  simp only [calculate_confidence_intervals]
  ring

/-- C9: directional accuracy is the fraction (as a percentage) of
first-difference steps on which `sign(Δactual)` and `sign(Δpredicted)`
agree, with a Δ of exactly 0 treated as non-positive: a step agrees
exactly when both differences are strictly positive or both are
non-positive. Consequently, for every actuals sequence of length ≥ 2,
directional accuracy is 100% when the predictions equal the actuals. -/
theorem directional_accuracy_sign_convention (actuals predictions : List ℝ)
    (hlen : actuals.length = predictions.length) :
    directional_accuracy actuals predictions =
      100 * (((diffs actuals).zip (diffs predictions)).countP
          (fun dp => decide ((0 < dp.1 ∧ 0 < dp.2) ∨ (dp.1 ≤ 0 ∧ dp.2 ≤ 0))) : ℝ) /
        ((diffs actuals).length : ℝ) ∧
    (2 ≤ actuals.length → directional_accuracy actuals actuals = 100) := by
  constructor
  · rw [directional_accuracy, mean, zipWith_eq_map_zip]
    have hzl : ((diffs actuals).zip (diffs predictions)).length = (diffs actuals).length := by
      simp [List.length_zip, diffs_length, hlen]
    have hc : ((diffs actuals).zip (diffs predictions)).countP
        (fun x => decide ((decide (x.1 > 0)) = (decide (x.2 > 0)))) =
      ((diffs actuals).zip (diffs predictions)).countP
        (fun dp => decide ((0 < dp.1 ∧ 0 < dp.2) ∨ (dp.1 ≤ 0 ∧ dp.2 ≤ 0))) := by
      apply List.countP_congr
      intro x _
      simp only [decide_eq_true_eq]
      exact decide_gt_eq_iff x.1 x.2
    rw [sum_indicator_eq_countP _ (fun x : ℝ × ℝ => (decide (x.1 > 0)) = (decide (x.2 > 0))),
      List.length_map, hzl, hc]
    ring
  · intro h2
    rw [directional_accuracy, indicator_zipWith_self,
      mean_replicate_one _ (by rw [diffs_length]; omega)]
    norm_num

/-- Witness for C9 at a concrete input. -/
theorem directional_accuracy_sign_convention_witness :
    2 ≤ [(1 : ℝ), 2, 1].length ∧ directional_accuracy [(1 : ℝ), 2, 1] [1, 2, 1] = 100 :=
  ⟨by simp, (directional_accuracy_sign_convention [(1 : ℝ), 2, 1] [1, 2, 1] rfl).2 (by simp)⟩

/-- C10: for every predictions/actuals pair of equal nonzero length and
every confidence level in `(0, 1)` (given that the standard-normal
quantile is nonnegative at arguments ≥ 1/2, which the two-sided quantile
of a confidence level in `(0, 1)` always receives), the retail-converted
interval is correctly ordered and centered: the margin is nonnegative,
`retail_lower ≤ retail_point ≤ retail_upper`, and the retail half-width
equals the wholesale margin scaled by `retailMultiplier / 1000` (the
additive retail base cost cancels out of the width). -/
theorem retail_interval_ordering (norm_ppf : ℝ → ℝ) (predictions actuals : List ℝ)
    (confidence : ℝ) (hlen : predictions.length = actuals.length)
    (hne : actuals ≠ []) (h0 : 0 < confidence) (h1 : confidence < 1)
    (hz : ∀ q : ℝ, 1 / 2 ≤ q → 0 ≤ norm_ppf q) :
    0 ≤ (calculate_confidence_intervals norm_ppf predictions actuals confidence).margin ∧
    (calculate_confidence_intervals norm_ppf predictions actuals confidence).retail_lower ≤
      (calculate_confidence_intervals norm_ppf predictions actuals confidence).retail_point ∧
    (calculate_confidence_intervals norm_ppf predictions actuals confidence).retail_point ≤
      (calculate_confidence_intervals norm_ppf predictions actuals confidence).retail_upper ∧
    (calculate_confidence_intervals norm_ppf predictions actuals confidence).retail_upper -
        (calculate_confidence_intervals norm_ppf predictions actuals confidence).retail_point =
      (calculate_confidence_intervals norm_ppf predictions actuals confidence).margin *
        (retail_multiplier / 1000) ∧
    (calculate_confidence_intervals norm_ppf predictions actuals confidence).retail_point -
        (calculate_confidence_intervals norm_ppf predictions actuals confidence).retail_lower =
      (calculate_confidence_intervals norm_ppf predictions actuals confidence).margin *
        (retail_multiplier / 1000) := by
  have hm : 0 ≤ norm_ppf ((1 + confidence) / 2) *
      np_std (List.zipWith (fun a p => a - p) actuals predictions) :=
    mul_nonneg (hz _ (by linarith)) (Real.sqrt_nonneg _)
  refine ⟨?_, ?_, ?_, ?_, ?_⟩
  · simpa only [calculate_confidence_intervals] using hm
  · simp only [calculate_confidence_intervals, retail_multiplier]
    linarith
  · simp only [calculate_confidence_intervals, retail_multiplier]
    linarith
  · simp only [calculate_confidence_intervals]
    ring
  · simp only [calculate_confidence_intervals]
    ring

/-- Witness for C10 at a concrete input. -/
theorem retail_interval_ordering_witness :
    [(0 : ℝ), 0].length = [(0 : ℝ), 2].length ∧
    0 ≤ (calculate_confidence_intervals (fun _ => (1.96 : ℝ)) [0, 0] [0, 2] 0.95).margin :=
  ⟨rfl, (retail_interval_ordering (fun _ => (1.96 : ℝ)) [0, 0] [0, 2] 0.95 rfl
    (by simp) (by norm_num) (by norm_num) (fun q hq => by norm_num)).1⟩

end Backtest
